import Mathlib

/-!
Shallow embedding of the plaintext-UDP transport adapter
(`source/transport/using_plaintext_udp.c`) and the UDP echo demo task
(`projects/hl7802_udp_echo_demo/echoTask.c`) of the
Lab-Project-FreeRTOS-Cellular-Demo repository, together with theorems
settling the specification claims about them.

Modelling conventions:
* C pointers that may be NULL become `Option`; a NULL pointer is `none`.
* Byte buffers become `List Nat` (each element a byte value).
* The external sockets library (`Sockets_Udp_Connect`, `Sockets_Send`,
  `Sockets_Recv`, `Sockets_Disconnect`) is an external collaborator; its
  behaviour enters the model as explicit oracle arguments describing the
  value the library returns (and, for a receive, the bytes it writes).
* Machine integers: `int32_t` values become `Int`; the `uint16_t` fail
  counter is a `Nat` reduced modulo 2^16 on increment; the `uint8_t`
  store `pTransportTestBuffer[i] = (uint8_t)i` becomes `i % 256`.
-/

/-- The transport status enumeration `PlaintextTransportStatus_t`.
The constructor names follow the enumerators used by the code
(`PLAINTEXT_TRANSPORT_SUCCESS`, `PLAINTEXT_TRANSPORT_INVALID_PARAMETER`,
`PLAINTEXT_TRANSPORT_CONNECT_FAILURE`); the defining header is an
external interface file, but all three members are used in the sources. -/
inductive PlaintextTransportStatus where
  | success
  | invalidParameter
  | connectFailure
deriving DecidableEq, Repr

/-- Modelled from the spec: the status enumeration is a small C enum
(success / invalid-parameter / connect-failure); its members carry the
default consecutive integer codes 0, 1, 2. -/
def statusCode : PlaintextTransportStatus → Int
  | .success => 0
  | .invalidParameter => 1
  | .connectFailure => 2

/-- Modelled from the spec: the sockets library's invalid-socket sentinel
`SOCKETS_INVALID_SOCKET`.  Socket handles are modelled as `Int`; the
sentinel is a fixed value distinct from the handles the demo uses. -/
def SOCKETS_INVALID_SOCKET : Int := -1

/-- `PlaintextTransportParams_t`: the bookkeeping block holding the
socket handle. -/
structure PlaintextTransportParams where
  socket : Int
deriving DecidableEq, Repr

/-- `struct NetworkContext`: a single (possibly NULL) pointer to the
transport parameter block. -/
structure NetworkContext where
  pParams : Option PlaintextTransportParams
deriving DecidableEq, Repr

/-- Outcome of one `Sockets_Udp_Connect` call: the `BaseType_t` status it
returns and the socket value it stores through its out-pointer. -/
structure UdpConnectOutcome where
  status : Int
  socket : Int
deriving DecidableEq, Repr

/-- Outcome of one `Sockets_Recv` call: the `int32_t` count it returns and
the bytes it writes at the start of the caller's buffer (at most the
returned count, and at most `bytesToRecv`, bytes are written). -/
structure RecvEvent where
  ret : Int
  data : List Nat
deriving DecidableEq, Repr

/-- Overwrite the prefix of `buf` with `d`, keeping `buf`'s length. -/
def writeBytes (buf d : List Nat) : List Nat :=
  d.take buf.length ++ buf.drop d.length

/-- Result of `Plaintext_FreeRTOS_UDP_Connect`: the returned status, the
network context as left by the call (its parameter block's socket field is
written by `Sockets_Udp_Connect`), and whether the sockets library was
invoked. -/
structure ConnectResult where
  status : PlaintextTransportStatus
  ctx : Option NetworkContext
  invokedSockets : Bool
deriving DecidableEq, Repr

/-- `Plaintext_FreeRTOS_UDP_Connect` (using_plaintext_udp.c, lines 59-99):
validate that the context, its parameter block and the host name are
non-NULL; otherwise call `Sockets_Udp_Connect` and map a non-zero status
to `PLAINTEXT_TRANSPORT_CONNECT_FAILURE`. -/
def Plaintext_FreeRTOS_UDP_Connect (ctx : Option NetworkContext)
    (pHostName : Option String) (_port : Nat)
    (_receiveTimeoutMs _sendTimeoutMs : Nat)
    (oracle : UdpConnectOutcome) : ConnectResult :=
  match ctx with
  | none => ⟨.invalidParameter, ctx, false⟩
  | some c =>
    match c.pParams with
    | none => ⟨.invalidParameter, ctx, false⟩
    | some _ =>
      match pHostName with
      | none => ⟨.invalidParameter, ctx, false⟩
      | some _ =>
        -- Sockets_Udp_Connect writes the new socket through
        -- &pPlaintextTransportParams->socket.
        let ctx' : Option NetworkContext := some ⟨some ⟨oracle.socket⟩⟩
        if oracle.status ≠ 0 then ⟨.connectFailure, ctx', true⟩
        else ⟨.success, ctx', true⟩

/-- Result of `Plaintext_FreeRTOS_UDP_Disconnect`. -/
structure DisconnectResult where
  status : PlaintextTransportStatus
  ctx : Option NetworkContext
  invokedSockets : Bool
deriving DecidableEq, Repr

/-- `Plaintext_FreeRTOS_UDP_Disconnect` (lines 103-126): reject a NULL
context, a NULL parameter block, or the invalid-socket sentinel; otherwise
call `Sockets_Disconnect` and return success. -/
def Plaintext_FreeRTOS_UDP_Disconnect (ctx : Option NetworkContext) :
    DisconnectResult :=
  match ctx with
  | none => ⟨.invalidParameter, ctx, false⟩
  | some c =>
    match c.pParams with
    | none => ⟨.invalidParameter, ctx, false⟩
    | some params =>
      if params.socket = SOCKETS_INVALID_SOCKET then
        ⟨.invalidParameter, ctx, false⟩
      else
        ⟨.success, ctx, true⟩

/-- Result of `Plaintext_FreeRTOS_sendTo`. -/
structure SendResult where
  ret : Int
  ctx : Option NetworkContext
  invokedSockets : Bool
deriving DecidableEq, Repr

/-- `Plaintext_FreeRTOS_sendTo` (lines 166-198): on a NULL context, NULL
parameter block, NULL buffer or zero length return `-1`; otherwise return
`Sockets_Send`'s return value (the oracle) unchanged. -/
def Plaintext_FreeRTOS_sendTo (ctx : Option NetworkContext)
    (pBuffer : Option (List Nat)) (bytesToSend : Nat)
    (oracle : Int) : SendResult :=
  match ctx with
  | none => ⟨-1, ctx, false⟩
  | some c =>
    match c.pParams with
    | none => ⟨-1, ctx, false⟩
    | some _ =>
      match pBuffer with
      | none => ⟨-1, ctx, false⟩
      | some _ =>
        if bytesToSend = 0 then ⟨-1, ctx, false⟩
        else ⟨oracle, ctx, true⟩

/-- Result of `Plaintext_FreeRTOS_recvFrom`: the returned count, the
buffer as left by the call, the context, and whether the sockets library
was invoked. -/
structure RecvResult where
  ret : Int
  buffer : Option (List Nat)
  ctx : Option NetworkContext
  invokedSockets : Bool
deriving DecidableEq, Repr

/-- `Plaintext_FreeRTOS_recvFrom` (lines 130-162): on a NULL context, NULL
parameter block, NULL buffer or zero length return `-1`; otherwise call
`Sockets_Recv`, which returns the oracle's count and writes the oracle's
bytes (at most that count, at most `bytesToRecv`) at the buffer start. -/
def Plaintext_FreeRTOS_recvFrom (ctx : Option NetworkContext)
    (pBuffer : Option (List Nat)) (bytesToRecv : Nat)
    (oracle : RecvEvent) : RecvResult :=
  match ctx with
  | none => ⟨-1, pBuffer, ctx, false⟩
  | some c =>
    match c.pParams with
    | none => ⟨-1, pBuffer, ctx, false⟩
    | some _ =>
      match pBuffer with
      | none => ⟨-1, pBuffer, ctx, false⟩
      | some buf =>
        if bytesToRecv = 0 then ⟨-1, pBuffer, ctx, false⟩
        else
          let written := oracle.data.take (min oracle.ret.toNat bytesToRecv)
          ⟨oracle.ret, some (writeBytes buf written), ctx, true⟩

/-!
## Echo demo task (`projects/hl7802_udp_echo_demo/echoTask.c`)

The demo is driven by the sockets library's responses, which enter the
model as oracles: a list of `Int` return values for the successive
`Sockets_Send` calls and a list of `RecvEvent`s for the successive
`Sockets_Recv` calls.  When an oracle list runs out while the code would
call the library again, the model returns `none` ("the run needs more
events"); a `some b` result is the Boolean the C function returns.
-/

/-- Default of the `ECHO_MAX_RETRY_COUNT` macro (echoTask.c, line 106). -/
def ECHO_MAX_RETRY_COUNT : Nat := 10

/-- `ECHO_SERVER_ENDPOINT` default (echoTask.c, line 70). -/
def ECHO_SERVER_ENDPOINT : String := "PLACE_HOLDER"

/-- `ECHO_SERVER_PORT` default (echoTask.c, line 79). -/
def ECHO_SERVER_PORT : Nat := 9000

/-- `ECHO_SEND_RECV_TIMEOUT_MS` default (echoTask.c, line 88). -/
def ECHO_SEND_RECV_TIMEOUT_MS : Nat := 5000

/-- An all-zero byte buffer of length `n` (the effect of
`memset(buf, 0, n)`, and the initial value of the zero-initialized
process-wide `xEchoTestBuffer` arrays). -/
def zeroBuf (n : Nat) : List Nat := List.replicate n 0

/-- The deterministic test pattern 0, 1, ..., 255, 0, 1, ... of length
`n`. -/
def testPattern (n : Nat) : List Nat := (List.range n).map (· % 256)

/-- Helper for `prvInitializeTestData`: write `(uint8_t) i` at every index
`i < testSize`, counting indices from `i0`. -/
def initTestDataFrom (i0 : Nat) (buf : List Nat) (testSize : Nat) :
    List Nat :=
  match buf with
  | [] => []
  | b :: bs =>
    (if i0 < testSize then i0 % 256 else b) :: initTestDataFrom (i0 + 1) bs testSize

/-- `prvInitializeTestData` (echoTask.c, lines 176-185): for
`i = 0 .. testSize - 1`, store `(uint8_t) i` at index `i`; other bytes of
the buffer are untouched. -/
def prvInitializeTestData (buf : List Nat) (testSize : Nat) : List Nat :=
  initTestDataFrom 0 buf testSize

/-- `prvSendPackets` (echoTask.c, lines 192-207): send `size` bytes of
`buf` with `Plaintext_FreeRTOS_sendTo`; the result is `true` exactly when
the returned count equals `size`.  `sendOracle` is the value the
underlying `Sockets_Send` returns. -/
def prvSendPackets (ctx : Option NetworkContext) (sendOracle : Int)
    (buf : List Nat) (size : Int) : Bool :=
  (Plaintext_FreeRTOS_sendTo ctx (some buf) size.toNat sendOracle).ret = size

/-- `prvRecvPackets` (echoTask.c, lines 214-234): repeatedly call
`Plaintext_FreeRTOS_recvFrom` into the same buffer; stop with `true` when
a call returns exactly `size`, keep looping while the count is positive,
and stop with `false` otherwise.  Consumes one `RecvEvent` per receive
attempt and also returns the buffer as left by the calls and the unused
events; `none` means the event list was exhausted with the loop still
running. -/
def prvRecvPackets (ctx : Option NetworkContext) :
    List RecvEvent → List Nat → Int → Option (Bool × List Nat × List RecvEvent)
  | [], _, _ => none
  | ev :: rest, buf, size =>
    let r := Plaintext_FreeRTOS_recvFrom ctx (some buf) size.toNat ev
    let buf' := (r.buffer).getD buf
    if r.ret = size then some (true, buf', rest)
    else if 0 < r.ret then prvRecvPackets ctx rest buf' size
    else some (false, buf', rest)

/-- Loop state of `prvLoopSendAndReceive`: the two process-wide buffers,
the current packet size (`int32_t size`) and the failure counter
(`uint16_t failCount`). -/
structure LoopSt where
  sendBuf : List Nat
  recvBuf : List Nat
  size : Int
  failCount : Nat
deriving DecidableEq, Repr

/-- Observables of a `prvLoopSendAndReceive` run: the returned Boolean
(`none` when an oracle ran out), the packet size passed to each
`prvSendPackets` call, the receive buffer's contents on entry to each
`prvRecvPackets` call, and the send buffer's contents at the start of
each loop iteration that executes its body. -/
structure LoopOut where
  result? : Option Bool
  sentSizes : List Int
  recvCallBufs : List (List Nat)
  sendBufs : List (List Nat)
deriving DecidableEq, Repr

/-- `prvLoopSendAndReceive` (echoTask.c, lines 238-294) over buffers of
array size `N` (`ECHO_BUFFER_MAX_SIZE`): for `size` from 10 while
`size <= N`: send; on send failure return `false`; receive; on a failed
receive increment `failCount` (a `uint16_t`) and return `false` once it
exceeds `ECHO_MAX_RETRY_COUNT`; on a received packet compare the first
`size` bytes with `memcmp` — equal resets `failCount` and increments
`size`, unequal returns `false`; at the end of each non-breaking
iteration `memset` the receive buffer to zero.  Recursion consumes one
send event per iteration. -/
def prvLoopSendAndReceive (ctx : Option NetworkContext) (N : Nat) :
    List Int → List RecvEvent → LoopSt → LoopOut
  | [], _, st =>
    if (N : Int) < st.size then ⟨some true, [], [], []⟩
    else ⟨none, [], [], []⟩
  | sev :: sends', recvs, st =>
    if (N : Int) < st.size then ⟨some true, [], [], []⟩
    else if prvSendPackets ctx sev st.sendBuf st.size = false then
      ⟨some false, [st.size], [], [st.sendBuf]⟩
    else
      match prvRecvPackets ctx recvs st.recvBuf st.size with
      | none => ⟨none, [st.size], [st.recvBuf], [st.sendBuf]⟩
      | some (recvResult, rbuf, recvs') =>
        if recvResult = false then
          let fc := (st.failCount + 1) % 65536
          if ECHO_MAX_RETRY_COUNT < fc then
            ⟨some false, [st.size], [st.recvBuf], [st.sendBuf]⟩
          else
            let out := prvLoopSendAndReceive ctx N sends' recvs'
              ⟨st.sendBuf, zeroBuf N, st.size, fc⟩
            ⟨out.result?, st.size :: out.sentSizes,
              st.recvBuf :: out.recvCallBufs, st.sendBuf :: out.sendBufs⟩
        else
          if st.sendBuf.take st.size.toNat = rbuf.take st.size.toNat then
            let out := prvLoopSendAndReceive ctx N sends' recvs'
              ⟨st.sendBuf, zeroBuf N, st.size + 1, 0⟩
            ⟨out.result?, st.size :: out.sentSizes,
              st.recvBuf :: out.recvCallBufs, st.sendBuf :: out.sendBufs⟩
          else
            ⟨some false, [st.size], [st.recvBuf], [st.sendBuf]⟩

/-- Result of a `RunEchoTask` run: the demo's pass/fail status (`none`
when an oracle ran out mid-loop) and the loop observables (empty when the
connection failed and the loop never ran). -/
structure EchoRunOut where
  status? : Option Bool
  out : LoopOut
deriving DecidableEq, Repr

/-- `prvTransportNetworkConnect` (echoTask.c, lines 138-161): connect and
report `true` exactly on `PLAINTEXT_TRANSPORT_SUCCESS`; also exposes the
context as left by the connect call. -/
def prvTransportNetworkConnect (ctx : Option NetworkContext)
    (oc : UdpConnectOutcome) : Bool × Option NetworkContext :=
  let r := Plaintext_FreeRTOS_UDP_Connect ctx (some ECHO_SERVER_ENDPOINT)
    ECHO_SERVER_PORT ECHO_SEND_RECV_TIMEOUT_MS ECHO_SEND_RECV_TIMEOUT_MS oc
  (r.status = PlaintextTransportStatus.success, r.ctx)

/-- `RunEchoTask` (echoTask.c, lines 301-337) over buffers of array size
`N`: point the stack context at a zero-initialized parameter block, fill
both process-wide buffers with the test pattern, connect, and on success
run the send/receive loop from `size = 10`, `failCount = 0`. -/
def RunEchoTask (N : Nat) (oc : UdpConnectOutcome)
    (sends : List Int) (recvs : List RecvEvent) : EchoRunOut :=
  let ctx0 : Option NetworkContext := some ⟨some ⟨0⟩⟩
  let sendBuf := prvInitializeTestData (zeroBuf N) N
  let recvBuf := prvInitializeTestData (zeroBuf N) N
  let conn := prvTransportNetworkConnect ctx0 oc
  if conn.fst then
    let lo := prvLoopSendAndReceive conn.snd N sends recvs
      ⟨sendBuf, recvBuf, 10, 0⟩
    ⟨lo.result?, lo⟩
  else
    ⟨some false, ⟨some false, [], [], []⟩⟩

/-- Send oracle of an ideal run: every `Sockets_Send` call for sizes
`s, s+1, ..., s+n-1` returns exactly the requested size. -/
def idealSends (s n : Nat) : List Int := (List.range' s n).map (fun (k : Nat) => (k : Int))

/-- Receive oracle of an ideal run: for each size `k` in
`s, s+1, ..., s+n-1` the single `Sockets_Recv` call returns `k` and
writes the first `k` bytes of `sendBuf` (a byte-exact echo). -/
def idealRecvs (sendBuf : List Nat) (s n : Nat) : List RecvEvent :=
  (List.range' s n).map (fun (k : Nat) => ⟨(k : Int), sendBuf.take k⟩)

/-- Modelled from the spec's words for the echo retry policy, read at
receive-attempt granularity as claim C2 states it: every receive attempt
returning fewer bytes than requested or zero bytes increments the failure
counter; the loop aborts with failure when the counter passes
`ECHO_MAX_RETRY_COUNT`; an attempt whose bytes compare equal to the send
buffer over the current size resets the counter and advances the size by
one.  `none` means the event list ran out. -/
def claimedRetryPolicy (sendBuf : List Nat) (N : Nat) :
    List RecvEvent → Int → Nat → Option Bool
  | evs, size, fc =>
    if (N : Int) < size then some true
    else
      match evs with
      | [] => none
      | ev :: rest =>
        if ev.ret = size ∧
            ev.data.take size.toNat = sendBuf.take size.toNat then
          claimedRetryPolicy sendBuf N rest (size + 1) 0
        else if ECHO_MAX_RETRY_COUNT < fc + 1 then some false
        else claimedRetryPolicy sendBuf N rest size (fc + 1)

/-- A valid network context used to instantiate concrete runs. -/
def validCtx : Option NetworkContext := some ⟨some ⟨7⟩⟩

/-!
## Theorems settling the claims
-/

/-- C4: `Plaintext_FreeRTOS_UDP_Connect` returns the invalid-parameter
status exactly when the network context, its parameter block, or the
host-name argument is NULL; otherwise it returns the connect-failure
status exactly when the underlying socket connect returns a non-zero
code, and the success status when that code is zero. -/
theorem C4_connect_status (ctx : Option NetworkContext)
    (host : Option String) (port rt st : Nat) (oc : UdpConnectOutcome) :
    (Plaintext_FreeRTOS_UDP_Connect ctx host port rt st oc).status =
      if ctx = none ∨ ctx.bind NetworkContext.pParams = none ∨ host = none then
        PlaintextTransportStatus.invalidParameter
      else if oc.status ≠ 0 then PlaintextTransportStatus.connectFailure
      else PlaintextTransportStatus.success := by
  rcases ctx with _ | ⟨_ | p⟩ <;> rcases host with _ | h <;>
    simp [Plaintext_FreeRTOS_UDP_Connect, Option.bind] <;>
    by_cases hs : oc.status = 0 <;> simp [hs]

/-- C7: `Plaintext_FreeRTOS_UDP_Disconnect` returns the invalid-parameter
status exactly when the network context is NULL, its parameter block is
NULL, or the stored socket equals the invalid-socket sentinel; in every
other case it invokes the sockets-library disconnect and returns the
success status (the full result records the invocation flag). -/
theorem C7_disconnect_status (ctx : Option NetworkContext) :
    Plaintext_FreeRTOS_UDP_Disconnect ctx =
      if ctx = none ∨ ctx.bind NetworkContext.pParams = none ∨
          (ctx.bind NetworkContext.pParams).map PlaintextTransportParams.socket
            = some SOCKETS_INVALID_SOCKET then
        ⟨PlaintextTransportStatus.invalidParameter, ctx, false⟩
      else
        ⟨PlaintextTransportStatus.success, ctx, true⟩ := by
  rcases ctx with _ | ⟨_ | p⟩ <;>
    simp [Plaintext_FreeRTOS_UDP_Disconnect, Option.bind] <;>
    by_cases hs : p.socket = SOCKETS_INVALID_SOCKET <;> simp [hs]

/-- C3 counterexample: with valid arguments and a sockets-library send
that reports 42 bytes sent, `Plaintext_FreeRTOS_sendTo` returns the raw
count 42, which is not the code of any member of the transport-status
enumeration — so send/receive do not return that enumeration. -/
theorem C3_counterexample :
    (Plaintext_FreeRTOS_sendTo validCtx (some (zeroBuf 10)) 10 42).ret = 42 ∧
    statusCode PlaintextTransportStatus.success ≠ 42 ∧
    statusCode PlaintextTransportStatus.invalidParameter ≠ 42 ∧
    statusCode PlaintextTransportStatus.connectFailure ≠ 42 := by
  decide

/-- C3 amended: `Plaintext_FreeRTOS_sendTo` and
`Plaintext_FreeRTOS_recvFrom` pass the sockets-library return code (a byte
count or negative error) through unchanged, returning `-1` on parameter
validation failure; they do not translate it into the transport-status
enumeration (only connect and disconnect return that enumeration). -/
theorem C3_send_recv_passthrough (ctx : Option NetworkContext)
    (buf : Option (List Nat)) (n : Nat) (sendOracle : Int)
    (ev : RecvEvent) :
    (Plaintext_FreeRTOS_sendTo ctx buf n sendOracle).ret =
      (if ctx = none ∨ ctx.bind NetworkContext.pParams = none ∨
          buf = none ∨ n = 0 then -1 else sendOracle) ∧
    (Plaintext_FreeRTOS_recvFrom ctx buf n ev).ret =
      (if ctx = none ∨ ctx.bind NetworkContext.pParams = none ∨
          buf = none ∨ n = 0 then -1 else ev.ret) := by
  rcases ctx with _ | ⟨_ | p⟩ <;> rcases buf with _ | b <;>
    simp [Plaintext_FreeRTOS_sendTo, Plaintext_FreeRTOS_recvFrom,
      Option.bind] <;>
    by_cases hn : n = 0 <;> simp [hn]

theorem initTestDataFrom_getElem? (buf : List Nat) (i0 t i : Nat) :
    (initTestDataFrom i0 buf t)[i]? =
      buf[i]?.map (fun b => if i0 + i < t then (i0 + i) % 256 else b) := by
  induction buf generalizing i0 i with
  | nil => simp [initTestDataFrom]
  | cons b bs ih =>
    cases i with
    | zero => simp [initTestDataFrom]
    | succ j =>
      simp only [initTestDataFrom, List.getElem?_cons_succ, ih,
        Nat.add_succ, Nat.succ_add]

/-- C8: `prvInitializeTestData` fills the buffer deterministically: the
byte at each index `i < testSize` becomes `i % 256`, and bytes at or
beyond `testSize` are unchanged (stated as one equation on the optional
lookup at every index). -/
theorem C8_initialize_test_data (buf : List Nat) (testSize i : Nat) :
    (prvInitializeTestData buf testSize)[i]? =
      buf[i]?.map (fun b => if i < testSize then i % 256 else b) := by
  simpa using initTestDataFrom_getElem? buf 0 testSize i

/-- C9: for every transport adapter operation, when parameter validation
fails (NULL context, NULL parameter block, NULL buffer or host name, or
zero length), the operation returns its error value without invoking the
underlying sockets library, and the network context (and, for receive,
the buffer) is left unchanged. -/
theorem C9_validation_no_invoke (ctx : Option NetworkContext)
    (host : Option String) (port rt st n : Nat) (buf : Option (List Nat))
    (oc : UdpConnectOutcome) (sendOracle : Int) (ev : RecvEvent) :
    ((ctx = none ∨ ctx.bind NetworkContext.pParams = none ∨ host = none) →
      Plaintext_FreeRTOS_UDP_Connect ctx host port rt st oc =
        ⟨PlaintextTransportStatus.invalidParameter, ctx, false⟩) ∧
    ((ctx = none ∨ ctx.bind NetworkContext.pParams = none) →
      Plaintext_FreeRTOS_UDP_Disconnect ctx =
        ⟨PlaintextTransportStatus.invalidParameter, ctx, false⟩) ∧
    ((ctx = none ∨ ctx.bind NetworkContext.pParams = none ∨
        buf = none ∨ n = 0) →
      Plaintext_FreeRTOS_sendTo ctx buf n sendOracle = ⟨-1, ctx, false⟩) ∧
    ((ctx = none ∨ ctx.bind NetworkContext.pParams = none ∨
        buf = none ∨ n = 0) →
      Plaintext_FreeRTOS_recvFrom ctx buf n ev = ⟨-1, buf, ctx, false⟩) := by
  refine ⟨?_, ?_, ?_, ?_⟩ <;>
    rcases ctx with _ | ⟨_ | p⟩ <;> rcases host with _ | h <;>
    rcases buf with _ | b <;>
    simp [Plaintext_FreeRTOS_UDP_Connect, Plaintext_FreeRTOS_UDP_Disconnect,
      Plaintext_FreeRTOS_sendTo, Plaintext_FreeRTOS_recvFrom, Option.bind] <;>
    rintro rfl <;> simp

/-- Witness for C9 at a concrete input: a NULL network context makes all
four operations return their error value without touching the sockets
library. -/
theorem C9_validation_no_invoke_witness :
    Plaintext_FreeRTOS_UDP_Connect none (some "host") 9000 5000 5000 ⟨0, 7⟩ =
      ⟨PlaintextTransportStatus.invalidParameter, none, false⟩ ∧
    Plaintext_FreeRTOS_UDP_Disconnect none =
      ⟨PlaintextTransportStatus.invalidParameter, none, false⟩ ∧
    Plaintext_FreeRTOS_sendTo none (some [1, 2, 3]) 3 3 = ⟨-1, none, false⟩ ∧
    Plaintext_FreeRTOS_recvFrom none (some [1, 2, 3]) 3 ⟨3, [4, 5, 6]⟩ =
      ⟨-1, some [1, 2, 3], none, false⟩ := by
  have h := C9_validation_no_invoke none (some "host") 9000 5000 5000 3
    (some [1, 2, 3]) ⟨0, 7⟩ 3 ⟨3, [4, 5, 6]⟩
  exact ⟨h.1 (Or.inl rfl), h.2.1 (Or.inl rfl), h.2.2.1 (Or.inl rfl),
    h.2.2.2 (Or.inl rfl)⟩

theorem getElem?_testPattern (N i : Nat) :
    (testPattern N)[i]? = if i < N then some (i % 256) else none := by
  have hr : (List.range N)[i]? = if i < N then some i else none := by
    rcases Nat.lt_or_ge i N with h | h
    · simp [List.getElem?_eq_getElem, List.getElem_range, h]
    · rw [List.getElem?_eq_none (by simpa using h)]
      simp [Nat.not_lt.2 h]
  simp only [testPattern, List.getElem?_map, hr]
  split <;> simp

theorem initTestData_zeroBuf (N : Nat) :
    prvInitializeTestData (zeroBuf N) N = testPattern N := by
  apply List.ext_getElem?
  intro i
  have h := initTestDataFrom_getElem? (zeroBuf N) 0 N i
  simp only [Nat.zero_add] at h
  simp only [prvInitializeTestData]
  rw [h, getElem?_testPattern, zeroBuf, List.getElem?_replicate]
  split <;> simp

theorem testPattern_length (N : Nat) : (testPattern N).length = N := by
  simp [testPattern]

theorem writeBytes_take (B d : List Nat) (h : d.length ≤ B.length) :
    (writeBytes B d).take d.length = d := by
  rw [writeBytes, List.take_of_length_le h]
  rw [show d.length = d.length from rfl, List.take_left]

theorem loop_recvCallBufs_cases (ctx : Option NetworkContext) (N : Nat) :
    ∀ (sends : List Int) (recvs : List RecvEvent) (st : LoopSt),
    (prvLoopSendAndReceive ctx N sends recvs st).recvCallBufs = [] ∨
    ∃ k, (prvLoopSendAndReceive ctx N sends recvs st).recvCallBufs =
      st.recvBuf :: List.replicate k (zeroBuf N) := by
  intro sends
  induction sends with
  | nil =>
    intro recvs st
    simp only [prvLoopSendAndReceive]
    split <;> simp
  | cons sev sends' ih =>
    intro recvs st
    simp only [prvLoopSendAndReceive]
    split
    · simp
    · split
      · simp
      · split
        · exact Or.inr ⟨0, rfl⟩
        · next recvResult rbuf recvs2 heq =>
          split
          · split
            · exact Or.inr ⟨0, rfl⟩
            · rcases ih recvs2
                ⟨st.sendBuf, zeroBuf N, st.size, (st.failCount + 1) % 65536⟩
                with h | ⟨k, h⟩
              · exact Or.inr ⟨0, by simp [h]⟩
              · exact Or.inr ⟨k + 1, by simp [h, List.replicate_succ]⟩
          · split
            · rcases ih recvs2
                ⟨st.sendBuf, zeroBuf N, st.size + 1, 0⟩
                with h | ⟨k, h⟩
              · exact Or.inr ⟨0, by simp [h]⟩
              · exact Or.inr ⟨k + 1, by simp [h, List.replicate_succ]⟩
            · exact Or.inr ⟨0, rfl⟩

theorem loop_sendBufs_const (ctx : Option NetworkContext) (N : Nat) :
    ∀ (sends : List Int) (recvs : List RecvEvent) (st : LoopSt),
    ∃ k, (prvLoopSendAndReceive ctx N sends recvs st).sendBufs =
      List.replicate k st.sendBuf := by
  intro sends
  induction sends with
  | nil =>
    intro recvs st
    simp only [prvLoopSendAndReceive]
    split <;> exact ⟨0, rfl⟩
  | cons sev sends' ih =>
    intro recvs st
    simp only [prvLoopSendAndReceive]
    split
    · exact ⟨0, rfl⟩
    · split
      · exact ⟨1, rfl⟩
      · split
        · exact ⟨1, rfl⟩
        · next recvResult rbuf recvs2 heq =>
          split
          · split
            · exact ⟨1, rfl⟩
            · obtain ⟨k, h⟩ := ih recvs2
                ⟨st.sendBuf, zeroBuf N, st.size, (st.failCount + 1) % 65536⟩
              exact ⟨k + 1, by simp [h, List.replicate_succ]⟩
          · split
            · obtain ⟨k, h⟩ := ih recvs2 ⟨st.sendBuf, zeroBuf N, st.size + 1, 0⟩
              exact ⟨k + 1, by simp [h, List.replicate_succ]⟩
            · exact ⟨1, rfl⟩

/-- C1 counterexample: in a run of `RunEchoTask` whose first receive
attempt immediately returns a byte-exact echo, the receive buffer on
entry to that first attempt is the deterministic test pattern installed
by `prvInitializeTestData` at task start — not all zero bytes.  The
`memset` zeroing only happens at the end of each loop iteration, after
the iteration's receive attempts. -/
theorem C1_counterexample :
    (RunEchoTask 10 ⟨0, 7⟩ [10] [⟨10, testPattern 10⟩]).out.recvCallBufs =
      [testPattern 10] ∧ testPattern 10 ≠ zeroBuf 10 := by
  decide

/-- C1 amended: the receive buffer is all zeros on entry to every
receive call after the first one, because each completed loop iteration
ends with `memset(recvBuf, 0, ...)`; on entry to the first receive call
it holds the deterministic test pattern installed at task start (and
within one call, attempts after a partial read see partially overwritten
contents). -/
theorem C1_recv_buffer_zeroed_after_first (N : Nat) (oc : UdpConnectOutcome)
    (sends : List Int) (recvs : List RecvEvent) :
    (RunEchoTask N oc sends recvs).out.recvCallBufs.drop 1 =
      List.replicate
        ((RunEchoTask N oc sends recvs).out.recvCallBufs.length - 1)
        (zeroBuf N) ∧
    (RunEchoTask N oc sends recvs).out.recvCallBufs.head?.getD
        (testPattern N) = testPattern N := by
  by_cases hc : oc.status = 0
  · have hrun : (RunEchoTask N oc sends recvs).out =
        prvLoopSendAndReceive (some ⟨some ⟨oc.socket⟩⟩) N sends recvs
          ⟨testPattern N, testPattern N, 10, 0⟩ := by
      simp [RunEchoTask, prvTransportNetworkConnect,
        Plaintext_FreeRTOS_UDP_Connect, hc, initTestData_zeroBuf]
    rw [hrun]
    rcases loop_recvCallBufs_cases (some ⟨some ⟨oc.socket⟩⟩) N sends recvs
        ⟨testPattern N, testPattern N, 10, 0⟩ with h | ⟨k, h⟩
    · simp [h]
    · simp [h]
  · have hrun : (RunEchoTask N oc sends recvs).out = ⟨some false, [], [], []⟩ := by
      simp [RunEchoTask, prvTransportNetworkConnect,
        Plaintext_FreeRTOS_UDP_Connect, hc]
    simp [hrun]

/-- C10: throughout every execution of the echo send/receive loop, the
send buffer is never written: at every loop iteration its contents equal
the deterministic test pattern installed at task start, so each
comparison checks the received bytes against the original test data. -/
theorem C10_send_buffer_preserved (N : Nat) (oc : UdpConnectOutcome)
    (sends : List Int) (recvs : List RecvEvent) :
    (RunEchoTask N oc sends recvs).out.sendBufs =
      List.replicate (RunEchoTask N oc sends recvs).out.sendBufs.length
        (testPattern N) := by
  by_cases hc : oc.status = 0
  · have hrun : (RunEchoTask N oc sends recvs).out =
        prvLoopSendAndReceive (some ⟨some ⟨oc.socket⟩⟩) N sends recvs
          ⟨testPattern N, testPattern N, 10, 0⟩ := by
      simp [RunEchoTask, prvTransportNetworkConnect,
        Plaintext_FreeRTOS_UDP_Connect, hc, initTestData_zeroBuf]
    rw [hrun]
    obtain ⟨k, h⟩ := loop_sendBufs_const (some ⟨some ⟨oc.socket⟩⟩) N sends
      recvs ⟨testPattern N, testPattern N, 10, 0⟩
    rw [h]
    simp
  · have hrun : (RunEchoTask N oc sends recvs).out = ⟨some false, [], [], []⟩ := by
      simp [RunEchoTask, prvTransportNetworkConnect,
        Plaintext_FreeRTOS_UDP_Connect, hc]
    simp [hrun]

theorem recvShortLoops (n : Nat) :
    ∀ buf, prvRecvPackets validCtx
      (List.replicate n ⟨5, [9, 9, 9, 9, 9]⟩) buf 10 = none := by
  induction n with
  | zero => intro buf; rfl
  | succ m ih =>
    intro buf
    simp only [List.replicate_succ, prvRecvPackets,
      Plaintext_FreeRTOS_recvFrom, validCtx]
    norm_num
    exact ih _

/-- C5 counterexample: a socket that keeps returning positive short
reads (5 bytes when 10 were requested) makes `prvRecvPackets` keep
re-attempting the receive without ever aborting: here it performs 1000
receive attempts for one packet (consuming all 1000 events and still
running), far beyond the `ECHO_MAX_RETRY_COUNT + 1` bound — so the
number of receive attempts for a given packet is not bounded. -/
theorem C5_counterexample :
    prvRecvPackets validCtx (List.replicate 1000 ⟨5, [9, 9, 9, 9, 9]⟩)
      (zeroBuf 10) 10 = none ∧
    ECHO_MAX_RETRY_COUNT + 1 < 1000 :=
  ⟨recvShortLoops 1000 (zeroBuf 10), by decide⟩

theorem recvPackets_fail_step (ctx : Option NetworkContext) (e : RecvEvent)
    (rest : List RecvEvent) (buf : List Nat) (size : Int)
    (hs : 0 < size) (he : e.ret ≤ 0) :
    ∃ buf2, prvRecvPackets ctx (e :: rest) buf size =
      some (false, buf2, rest) := by
  have hsz : ¬ size.toNat = 0 := by omega
  have hne : e.ret ≠ size := by omega
  have hpos : ¬ 0 < e.ret := by omega
  have hm1 : (-1 : Int) ≠ size := by omega
  rcases ctx with _ | ⟨_ | p⟩ <;>
    simp [prvRecvPackets, Plaintext_FreeRTOS_recvFrom, hsz, hne, hpos, hm1]

/-- C5 amended: the failed-receive retry is bounded — for a packet size
that never advances, the loop makes at most `ECHO_MAX_RETRY_COUNT + 1 -
failCount` receive calls before stopping, and it cannot end in success —
provided every underlying receive returns zero or a negative count
(packet loss).  Only positive short reads (see the counterexample) make
the attempt count unbounded. -/
theorem C5_bounded_retry_without_short_reads
    (ctx : Option NetworkContext) (N : Nat) :
    ∀ (sends : List Int) (recvs : List RecvEvent) (st : LoopSt),
    0 < st.size → st.failCount ≤ ECHO_MAX_RETRY_COUNT →
    (∀ e ∈ recvs, e.ret ≤ 0) →
    (prvLoopSendAndReceive ctx N sends recvs st).recvCallBufs.length ≤
      ECHO_MAX_RETRY_COUNT + 1 - st.failCount ∧
    (st.size ≤ (N : Int) →
      (prvLoopSendAndReceive ctx N sends recvs st).result? ≠ some true) := by
  intro sends
  induction sends with
  | nil =>
    intro recvs st h1 h2 h3
    simp only [prvLoopSendAndReceive]
    split
    · next hN => exact ⟨by simp, fun hle => absurd hN (by omega)⟩
    · exact ⟨by simp, by simp⟩
  | cons sev sends' ih =>
    intro recvs st h1 h2 h3
    simp only [prvLoopSendAndReceive]
    split
    · next hN => exact ⟨by simp, fun hle => absurd hN (by omega)⟩
    · split
      · exact ⟨by simp, by simp⟩
      · split
        · refine ⟨?_, by simp⟩
          simp only [List.length_cons, List.length_nil]
          simp only [ECHO_MAX_RETRY_COUNT] at h2 ⊢
          omega
        · next recvResult rbuf recvs2 heq =>
          match recvs, h3 with
          | [], _ => simp [prvRecvPackets] at heq
          | e :: rest, h3 =>
            obtain ⟨buf2, hstep⟩ := recvPackets_fail_step ctx e rest
              st.recvBuf st.size h1 (h3 e (List.mem_cons_self e rest))
            rw [hstep] at heq
            simp only [Option.some.injEq, Prod.mk.injEq] at heq
            obtain ⟨hres, hbuf, hrest⟩ := heq
            subst hres
            subst hrest
            split
            · split
              · refine ⟨?_, by simp⟩
                simp only [List.length_cons, List.length_nil]
                simp only [ECHO_MAX_RETRY_COUNT] at h2 ⊢
                omega
              · next hth =>
                have hlt : st.failCount + 1 < 65536 := by
                  simp only [ECHO_MAX_RETRY_COUNT] at h2
                  omega
                have hmod : (st.failCount + 1) % 65536 = st.failCount + 1 :=
                  Nat.mod_eq_of_lt hlt
                have hfc : st.failCount + 1 ≤ ECHO_MAX_RETRY_COUNT := by
                  rw [hmod] at hth
                  omega
                have hih := ih rest
                  ⟨st.sendBuf, zeroBuf N, st.size, (st.failCount + 1) % 65536⟩
                  h1 (by simpa [hmod] using hfc)
                  (fun e2 he2 => h3 e2 (List.mem_cons_of_mem e he2))
                refine ⟨?_, fun hle => ?_⟩
                · have hb := hih.1
                  simp only [List.length_cons]
                  simp [ECHO_MAX_RETRY_COUNT, hmod] at hb h2 ⊢
                  omega
                · have hr := hih.2 hle
                  simp [hmod] at hr ⊢
                  exact hr
            · next hres2 => exact absurd rfl hres2

/-- Witness for C5 at a concrete input: packet size 10, two send events
and two failed receives; the loop makes at most
`ECHO_MAX_RETRY_COUNT + 1` receive calls and does not end in success. -/
theorem C5_bounded_retry_without_short_reads_witness :
    (prvLoopSendAndReceive validCtx 10 [10, 10] [⟨0, []⟩, ⟨0, []⟩]
      ⟨testPattern 10, testPattern 10, 10, 0⟩).recvCallBufs.length ≤
      ECHO_MAX_RETRY_COUNT + 1 - 0 ∧
    (prvLoopSendAndReceive validCtx 10 [10, 10] [⟨0, []⟩, ⟨0, []⟩]
      ⟨testPattern 10, testPattern 10, 10, 0⟩).result? ≠ some true := by
  have h := C5_bounded_retry_without_short_reads validCtx 10 [10, 10]
    [⟨0, []⟩, ⟨0, []⟩] ⟨testPattern 10, testPattern 10, 10, 0⟩
    (by decide) (by decide)
    (by intro e he; simp at he; rcases he with rfl | rfl <;> decide)
  exact ⟨h.1, h.2 (by decide)⟩

theorem idealSends_succ (s m : Nat) :
    idealSends s (m + 1) = ((s : Int)) :: idealSends (s + 1) m := by
  simp [idealSends, List.range'_succ]

theorem idealRecvs_succ (P : List Nat) (s m : Nat) :
    idealRecvs P s (m + 1) =
      ⟨(s : Int), P.take s⟩ :: idealRecvs P (s + 1) m := by
  simp [idealRecvs, List.range'_succ]

theorem ideal_loop (sk : Int) (N : Nat) :
    ∀ (n s : Nat) (B : List Nat), 1 ≤ s → N + 1 = s + n → B.length = N →
    (prvLoopSendAndReceive (some ⟨some ⟨sk⟩⟩) N (idealSends s n)
        (idealRecvs (testPattern N) s n)
        ⟨testPattern N, B, (s : Int), 0⟩).result? = some true ∧
    (prvLoopSendAndReceive (some ⟨some ⟨sk⟩⟩) N (idealSends s n)
        (idealRecvs (testPattern N) s n)
        ⟨testPattern N, B, (s : Int), 0⟩).sentSizes =
      (List.range' s n).map (fun (k : Nat) => (k : Int)) := by
  intro n
  induction n with
  | zero =>
    intro s B hs hN hB
    have hlt : (N : Int) < (s : Int) := by omega
    simp [idealSends, idealRecvs, prvLoopSendAndReceive, hlt]
  | succ m ih =>
    intro s B hs hN hB
    have hsN : s ≤ N := by omega
    have hlt : ¬ (N : Int) < (s : Int) := by omega
    have hs0 : ¬ s = 0 := by omega
    have htn : ((s : Int)).toNat = s := Int.toNat_natCast s
    have htake : ((testPattern N).take s).length = s := by
      simp [testPattern_length, hsN]
    have hmatch : (writeBytes B ((testPattern N).take s)).take s =
        (testPattern N).take s := by
      have h := writeBytes_take B ((testPattern N).take s) (by omega)
      rwa [htake] at h
    have hsend : prvSendPackets (some ⟨some ⟨sk⟩⟩) ((s : Nat) : Int)
        (testPattern N) ((s : Int)) = true := by
      simp [prvSendPackets, Plaintext_FreeRTOS_sendTo, htn, hs0]
    have hwr : ((testPattern N).take s).take (min ((s : Int)).toNat s) =
        (testPattern N).take s := by
      rw [htn, min_self, List.take_of_length_le (le_of_eq htake)]
    have hrecv : prvRecvPackets (some ⟨some ⟨sk⟩⟩)
        (⟨((s : Nat) : Int), (testPattern N).take s⟩ ::
          idealRecvs (testPattern N) (s + 1) m) B ((s : Int)) =
        some (true, writeBytes B ((testPattern N).take s),
          idealRecvs (testPattern N) (s + 1) m) := by
      simp [prvRecvPackets, Plaintext_FreeRTOS_recvFrom, htn, hs0, hwr,
        List.take_take]
    have hih := ih (s + 1) (zeroBuf N) (by omega) (by omega) (by simp [zeroBuf])
    push_cast at hih
    rw [idealSends_succ, idealRecvs_succ]
    simp only [prvLoopSendAndReceive, hsend, hrecv, htn, hmatch, hlt]
    simp only [if_false, Bool.true_eq_false, if_neg, ite_false]
    refine ⟨?_, ?_⟩
    · simpa using hih.1
    · rw [List.range'_succ]
      simp only [List.map_cons]
      simpa using hih.2

/-- C6: when every send succeeds and every receive returns a byte-exact
echo, the echo loop sends packets of every size from 10 up to and
including `ECHO_BUFFER_MAX_SIZE` (= `N`), in strictly increasing order
(the sent sizes are exactly the range `10, 11, ..., N`), and then
returns success.  The loop state is the one `RunEchoTask` starts the
loop with. -/
theorem C6_ideal_run_sends_all_sizes (N : Nat) (sk : Int) :
    (prvLoopSendAndReceive (some ⟨some ⟨sk⟩⟩) N (idealSends 10 (N - 9))
        (idealRecvs (testPattern N) 10 (N - 9))
        ⟨testPattern N, testPattern N, 10, 0⟩).result? = some true ∧
    (prvLoopSendAndReceive (some ⟨some ⟨sk⟩⟩) N (idealSends 10 (N - 9))
        (idealRecvs (testPattern N) 10 (N - 9))
        ⟨testPattern N, testPattern N, 10, 0⟩).sentSizes =
      (List.range' 10 (N - 9)).map (fun (k : Nat) => (k : Int)) := by
  rcases Nat.lt_or_ge N 10 with h | h
  · have h0 : N - 9 = 0 := by omega
    have hlt : (N : Int) < (10 : Int) := by omega
    rw [h0]
    simp [idealSends, idealRecvs, prvLoopSendAndReceive, hlt]
  · have hN : N + 1 = 10 + (N - 9) := by omega
    have hmain := ideal_loop sk N (N - 9) 10 (testPattern N) (by omega) hN
      (testPattern_length N)
    simpa using hmain

/-- C2 counterexample: on identical receive outcomes — eleven positive
short reads (5 of 10 bytes) followed by one byte-exact echo — the code's
loop succeeds (`prvRecvPackets` silently re-attempts short reads without
touching the failure counter), while the policy exactly as the claim
states it (increment the counter on every short or zero-length receive
attempt, abort once past `ECHO_MAX_RETRY_COUNT`) aborts with failure. -/
theorem C2_counterexample :
    (prvLoopSendAndReceive validCtx 10 [10]
      (List.replicate 11 ⟨5, [0, 1, 2, 3, 4]⟩ ++ [⟨10, testPattern 10⟩])
      ⟨testPattern 10, testPattern 10, 10, 0⟩).result? = some true ∧
    claimedRetryPolicy (testPattern 10) 10
      (List.replicate 11 ⟨5, [0, 1, 2, 3, 4]⟩ ++ [⟨10, testPattern 10⟩])
      10 0 = some false := by
  decide

/-- C2 amended: the retry policy at receive-call granularity.  After a
successful send: (1) a failed receive call (one in which an attempt
returned zero or a negative count) increments the failure counter and
the loop aborts with failure exactly when the incremented counter
exceeds `ECHO_MAX_RETRY_COUNT`, otherwise it continues at the same
packet size with the counter incremented; (2) a successful receive call
whose bytes compare equal to the send buffer over the current size
resets the counter to zero and advances the size by one; (3) a
successful receive call with unequal bytes aborts with failure; (4) a
receive attempt returning a positive count different from the requested
size causes an immediate further receive attempt inside the same call,
with no effect on the failure counter. -/
theorem C2_retry_policy_steps (ctx : Option NetworkContext) (N : Nat)
    (sev : Int) (sends' : List Int) (recvs recvs2 : List RecvEvent)
    (st : LoopSt) (rbuf : List Nat)
    (hN : ¬ (N : Int) < st.size)
    (hsend : prvSendPackets ctx sev st.sendBuf st.size = true) :
    (prvRecvPackets ctx recvs st.recvBuf st.size = some (false, rbuf, recvs2) →
      prvLoopSendAndReceive ctx N (sev :: sends') recvs st =
        if ECHO_MAX_RETRY_COUNT < (st.failCount + 1) % 65536 then
          ⟨some false, [st.size], [st.recvBuf], [st.sendBuf]⟩
        else
          let out := prvLoopSendAndReceive ctx N sends' recvs2
            ⟨st.sendBuf, zeroBuf N, st.size, (st.failCount + 1) % 65536⟩
          ⟨out.result?, st.size :: out.sentSizes,
            st.recvBuf :: out.recvCallBufs, st.sendBuf :: out.sendBufs⟩) ∧
    (prvRecvPackets ctx recvs st.recvBuf st.size = some (true, rbuf, recvs2) →
      st.sendBuf.take st.size.toNat = rbuf.take st.size.toNat →
      prvLoopSendAndReceive ctx N (sev :: sends') recvs st =
        (let out := prvLoopSendAndReceive ctx N sends' recvs2
            ⟨st.sendBuf, zeroBuf N, st.size + 1, 0⟩
         ⟨out.result?, st.size :: out.sentSizes,
           st.recvBuf :: out.recvCallBufs, st.sendBuf :: out.sendBufs⟩)) ∧
    (prvRecvPackets ctx recvs st.recvBuf st.size = some (true, rbuf, recvs2) →
      st.sendBuf.take st.size.toNat ≠ rbuf.take st.size.toNat →
      prvLoopSendAndReceive ctx N (sev :: sends') recvs st =
        ⟨some false, [st.size], [st.recvBuf], [st.sendBuf]⟩) ∧
    (∀ ev rest, recvs = ev :: rest →
      0 < (Plaintext_FreeRTOS_recvFrom ctx (some st.recvBuf)
        st.size.toNat ev).ret →
      (Plaintext_FreeRTOS_recvFrom ctx (some st.recvBuf)
        st.size.toNat ev).ret ≠ st.size →
      prvRecvPackets ctx recvs st.recvBuf st.size =
        prvRecvPackets ctx rest
          ((Plaintext_FreeRTOS_recvFrom ctx (some st.recvBuf)
            st.size.toNat ev).buffer.getD st.recvBuf)
          st.size) := by
  refine ⟨?_, ?_, ?_, ?_⟩
  · intro hr
    simp only [prvLoopSendAndReceive]
    rw [if_neg hN, if_neg (by simp [hsend]), hr]
    simp
  · intro hr hm
    simp only [prvLoopSendAndReceive]
    rw [if_neg hN, if_neg (by simp [hsend]), hr]
    simp [hm]
  · intro hr hm
    simp only [prvLoopSendAndReceive]
    rw [if_neg hN, if_neg (by simp [hsend]), hr]
    simp [hm]
  · intro ev rest hc h1 h2
    subst hc
    simp only [prvRecvPackets]
    rw [if_neg h2, if_pos h1]

/-- Witness for C2 at a concrete input: size 10, counter 0; the receive
call fails with a zero-length read, so the loop continues at size 10
with the counter incremented to 1 and the receive buffer zeroed. -/
theorem C2_retry_policy_steps_witness :
    prvLoopSendAndReceive validCtx 10 [10, 10]
        [⟨0, []⟩, ⟨10, testPattern 10⟩]
        ⟨testPattern 10, testPattern 10, 10, 0⟩ =
      if ECHO_MAX_RETRY_COUNT < (0 + 1) % 65536 then
        ⟨some false, [10], [testPattern 10], [testPattern 10]⟩
      else
        let out := prvLoopSendAndReceive validCtx 10 [10]
          [⟨10, testPattern 10⟩] ⟨testPattern 10, zeroBuf 10, 10, (0 + 1) % 65536⟩
        ⟨out.result?, 10 :: out.sentSizes, testPattern 10 :: out.recvCallBufs,
          testPattern 10 :: out.sendBufs⟩ :=
  (C2_retry_policy_steps validCtx 10 10 [10]
    [⟨0, []⟩, ⟨10, testPattern 10⟩] [⟨10, testPattern 10⟩]
    ⟨testPattern 10, testPattern 10, 10, 0⟩ (testPattern 10)
    (by decide) (by decide)).1 (by decide)
